import Mathlib

/-!
# Verification of the `live-vision` client component

Shallow embedding of the two versions of the React component:

* `src/unnamed/part_000` — the version with a face-count display whose
  `ws.onmessage` handler branches on `typeof event.data === 'string'`
  (text → `setFaceCount(parseInt(event.data, 10))`, binary → blob /
  object-URL / `Image` decode / paint / revoke).
* `src/client/src/App.tsx` — the version without a face count whose
  `ws.onmessage` handler treats every payload as image bytes.

Both versions share the same mount/unmount lifecycle
(`new WebSocket(...)` in the component body, cleanup
`if (ws.readyState === 1) ws.close()`), and the same `img.onload`
callback (paint at `(0,0)` scaled to the canvas width/height, then
`URL.revokeObjectURL(url)`, both guarded by `videoRef.current` and
`getContext('2d')`).

JavaScript `NaN` face counts are modelled as `none : Option Int`;
object URLs are modelled by the natural number `nextUrl` counter.
-/

namespace LiveVision

/-- WebSocket readyState values: CONNECTING 0, OPEN 1, CLOSING 2, CLOSED 3. -/
inductive WSState
  | connecting
  | opened
  | closing
  | closed
deriving DecidableEq

/-- Numeric `readyState` code of a `WSState` (the cleanup tests `readyState === 1`). -/
def readyStateCode : WSState → Nat
  | .connecting => 0
  | .opened => 1
  | .closing => 2
  | .closed => 3

/-- A record of one `context.drawImage(img, dx, dy, dw, dh)` call:
the identity of the decoded image and the destination rectangle. -/
structure Paint where
  img : List Nat
  dx : Nat
  dy : Nat
  dw : Nat
  dh : Nat
deriving DecidableEq

/-- The `<canvas className="webcam" ref={videoRef} />` element: its current
width/height, whether `getContext('2d')` succeeds, and its painted content. -/
structure CanvasEl where
  width : Nat
  height : Nat
  ctx2d : Bool
  content : Option Paint
deriving DecidableEq

/-- An inbound WebSocket message: `typeof event.data === 'string'` (text)
or binary image bytes. -/
inductive Msg
  | text (s : String)
  | binary (bytes : List Nat)
deriving DecidableEq

/-- The bytes of a payload once wrapped in a `Blob` (the `App.tsx` version
blobs every payload, textual ones included). -/
def msgBytes : Msg → List Nat
  | .text s => s.data.map Char.toNat
  | .binary bs => bs

/-- Value of a digit string, most significant digit first
(the accumulator fold of positional base-10 reading). -/
def digitsToNat (cs : List Char) : Nat :=
  cs.foldl (fun a c => 10 * a + (c.toNat - 48)) 0

/-- Longest leading run of decimal digits, `none` when there is none
(ECMAScript `parseInt` yields `NaN` in that case). -/
def parseDigits (cs : List Char) : Option Nat :=
  let ds := cs.takeWhile Char.isDigit
  if ds.isEmpty then none else some (digitsToNat ds)

/-- `parseInt` after whitespace stripping: optional sign, then the longest
digit prefix. -/
def parseIntFrom (cs : List Char) : Option Int :=
  match cs with
  | [] => none
  | c :: rest =>
    if c = '-' then (parseDigits rest).map (fun n => -(n : Int))
    else if c = '+' then (parseDigits rest).map (fun n => (n : Int))
    else (parseDigits (c :: rest)).map (fun n => (n : Int))

/-- Model of ECMAScript `parseInt(s, 10)` as called at
`src/unnamed/part_000` line 17: skip leading whitespace, read an optional
sign and the longest prefix of decimal digits; `none` models `NaN`. -/
def parseInt10 (s : String) : Option Int :=
  parseIntFrom (s.data.dropWhile Char.isWhitespace)

/-- The whole component state: connection state, the `faceCount` React state
(`none` models `NaN`), the `videoRef.current` canvas, the object-URL
allocation counter, which URLs `URL.createObjectURL` handed out and which
`URL.revokeObjectURL` released, and how many sockets were opened / how many
`ws.close()` calls were issued. -/
structure AppState where
  wsState : WSState
  faceCount : Option Int
  canvas : Option CanvasEl
  nextUrl : Nat
  allocated : List Nat
  revoked : List Nat
  opens : Nat
  closes : Nat
deriving DecidableEq

/-- State at first construction: `useState(0)`, nothing mounted, no URLs. -/
def initState : AppState :=
  { wsState := .connecting
    faceCount := some 0
    canvas := none
    nextUrl := 0
    allocated := []
    revoked := []
    opens := 0
    closes := 0 }

/-- Mounting the component (`src/unnamed/part_000` lines 4-9 and the
`useEffect` body): one `new WebSocket(import.meta.env.VITE_API_ROOT)` is
constructed and the canvas element is attached to `videoRef`. -/
def mount (s : AppState) (canv : CanvasEl) : AppState :=
  { s with wsState := .connecting
           opens := s.opens + 1
           canvas := some canv }

/-- Unmounting (`src/unnamed/part_000` lines 45-49): the effect cleanup runs
`if (ws.readyState === 1) ws.close()`, and React clears `videoRef.current`. -/
def unmount (s : AppState) : AppState :=
  let s1 :=
    if readyStateCode s.wsState = 1 then
      { s with closes := s.closes + 1, wsState := .closing }
    else s
  { s1 with canvas := none }

/-- The `ws.onmessage` handler of `src/unnamed/part_000` (lines 14-35):
a string payload is parsed with `parseInt(event.data, 10)` and stored via
`setFaceCount`; a binary payload is wrapped in a `Blob`, given a fresh
object URL, and an asynchronous `Image` decode is started. -/
def handleMessage (s : AppState) (m : Msg) : AppState :=
  match m with
  | .text str => { s with faceCount := parseInt10 str }
  | .binary _ =>
    { s with nextUrl := s.nextUrl + 1
             allocated := s.allocated ++ [s.nextUrl] }

/-- The `ws.onmessage` handler of `src/client/src/App.tsx` (lines 13-29):
there is no `typeof` test — every payload, textual or binary, is wrapped in
a `Blob`, given a fresh object URL, and an asynchronous decode is started.
No face count exists in this version, so `faceCount` is untouched. -/
def handleMessageOld (s : AppState) (_ : Msg) : AppState :=
  { s with nextUrl := s.nextUrl + 1
           allocated := s.allocated ++ [s.nextUrl] }

/-- The `img.onload` callback of `src/unnamed/part_000` (lines 24-33): if
`videoRef.current` is set and `getContext('2d')` returns a context, the
decoded image is drawn with `drawImage(img, 0, 0, width, height)` and the
object URL is revoked; otherwise nothing at all happens. -/
def handleLoad (s : AppState) (url : Nat) (img : List Nat) : AppState :=
  match s.canvas with
  | none => s
  | some c =>
    if c.ctx2d then
      { s with canvas := some { c with content := some ⟨img, 0, 0, c.width, c.height⟩ }
               revoked := s.revoked ++ [url] }
    else s

/-- The `img.onload` callback of `src/client/src/App.tsx` (lines 19-28),
transcribed separately from its own source text (it is character-for-character
the same guard / paint / revoke sequence as in `part_000`). -/
def handleLoadOld (s : AppState) (url : Nat) (img : List Nat) : AppState :=
  match s.canvas with
  | none => s
  | some c =>
    if c.ctx2d then
      { s with canvas := some { c with content := some ⟨img, 0, 0, c.width, c.height⟩ }
               revoked := s.revoked ++ [url] }
    else s

/-- Events driving the component: React lifecycle, socket callbacks,
inbound messages, and completions of asynchronous image decodes
(`img.onload` firing for the URL it captured). `onopen`, `onclose` and
`onerror` only log, but the browser moves `readyState`. -/
inductive Ev
  | mountEv (canv : CanvasEl)
  | unmountEv
  | msgEv (m : Msg)
  | loadEv (url : Nat) (img : List Nat)
  | sockOpenEv
  | sockCloseEv
  | sockErrorEv
deriving DecidableEq

/-- One step of the component under an event. -/
def step (s : AppState) : Ev → AppState
  | .mountEv canv => mount s canv
  | .unmountEv => unmount s
  | .msgEv m => handleMessage s m
  | .loadEv url img => handleLoad s url img
  | .sockOpenEv => { s with wsState := .opened }
  | .sockCloseEv => { s with wsState := .closed }
  | .sockErrorEv => s

/-- Running a sequence of events. -/
def run (s : AppState) (evs : List Ev) : AppState := evs.foldl step s

/-! ## Decimal representations (spec side, for stating claim C3) -/

/-- Decimal digit characters of `n`, most significant first. -/
def natToDigits (n : Nat) : List Char :=
  if h : n < 10 then [Char.ofNat (48 + n)]
  else natToDigits (n / 10) ++ [Char.ofNat (48 + n % 10)]
termination_by n
decreasing_by exact Nat.div_lt_self (by omega) (by omega)

/-- The canonical base-10 string of an integer: optional minus sign, then
the decimal digits of its absolute value. -/
def intToDecStr (i : Int) : String :=
  if i < 0 then ⟨'-' :: natToDigits i.natAbs⟩ else ⟨natToDigits i.natAbs⟩

/-! ## Character and digit-string lemmas -/

lemma digitChar_isDigit (d : Nat) (h : d < 10) :
    (Char.ofNat (48 + d)).isDigit = true := by
  interval_cases d <;> decide

lemma digitChar_toNat (d : Nat) (h : d < 10) :
    (Char.ofNat (48 + d)).toNat = 48 + d := by
  interval_cases d <;> decide

lemma isDigit_not_whitespace {c : Char} (h : c.isDigit = true) :
    c.isWhitespace = false := by
  by_contra hw
  rw [Bool.not_eq_false] at hw
  simp only [Char.isWhitespace, Bool.or_eq_true, decide_eq_true_eq] at hw
  rcases hw with ((h1 | h1) | h1) | h1 <;> (subst h1; exact absurd h (by decide))

lemma isDigit_ne_dash {c : Char} (h : c.isDigit = true) : c ≠ '-' := by
  intro h1; subst h1; exact absurd h (by decide)

lemma isDigit_ne_plus {c : Char} (h : c.isDigit = true) : c ≠ '+' := by
  intro h1; subst h1; exact absurd h (by decide)

lemma takeWhile_eq_self {α} (p : α → Bool) :
    ∀ l : List α, (∀ c ∈ l, p c = true) → l.takeWhile p = l
  | [], _ => rfl
  | a :: l, h => by
    rw [List.takeWhile_cons, if_pos (h a (by simp))]
    rw [takeWhile_eq_self p l (fun c hc => h c (by simp [hc]))]

lemma natToDigits_isDigit (n : Nat) :
    ∀ c ∈ natToDigits n, c.isDigit = true := by
  induction n using Nat.strong_induction_on with
  | _ n ih =>
    rw [natToDigits]
    split
    · intro c hc
      simp only [List.mem_singleton] at hc
      subst hc
      exact digitChar_isDigit n (by omega)
    · intro c hc
      rcases List.mem_append.mp hc with h1 | h1
      · exact ih (n / 10) (Nat.div_lt_self (by omega) (by omega)) c h1
      · simp only [List.mem_singleton] at h1
        subst h1
        exact digitChar_isDigit (n % 10) (Nat.mod_lt _ (by omega))

lemma natToDigits_ne_nil (n : Nat) : natToDigits n ≠ [] := by
  rw [natToDigits]
  split
  · simp
  · simp

lemma digitsToNat_append (a : List Char) (c : Char) :
    digitsToNat (a ++ [c]) = 10 * digitsToNat a + (c.toNat - 48) := by
  simp [digitsToNat, List.foldl_append]

lemma digitsToNat_natToDigits (n : Nat) : digitsToNat (natToDigits n) = n := by
  induction n using Nat.strong_induction_on with
  | _ n ih =>
    rw [natToDigits]
    split
    · rename_i h
      simp [digitsToNat, digitChar_toNat n h]
    · rename_i h
      rw [digitsToNat_append, ih (n / 10) (Nat.div_lt_self (by omega) (by omega)),
        digitChar_toNat (n % 10) (Nat.mod_lt _ (by omega))]
      omega

/-- `parseInt` on a pure digit string reads the whole string positionally. -/
lemma parseInt10_all_digits (l : List Char) (hne : l ≠ [])
    (hd : ∀ c ∈ l, c.isDigit = true) :
    parseInt10 ⟨l⟩ = some ((digitsToNat l : Nat) : Int) := by
  have hdata : (String.mk l).data = l := rfl
  unfold parseInt10
  rw [hdata]
  cases l with
  | nil => exact absurd rfl hne
  | cons a l =>
    have ha : a.isDigit = true := hd a (by simp)
    have haw : a.isWhitespace = false := isDigit_not_whitespace ha
    rw [List.dropWhile_cons, if_neg (by simp [haw])]
    simp only [parseIntFrom]
    rw [if_neg (isDigit_ne_dash ha), if_neg (isDigit_ne_plus ha)]
    unfold parseDigits
    rw [takeWhile_eq_self _ _ hd]
    simp

/-- `parseInt` on a minus sign followed by a pure digit string. -/
lemma parseInt10_dash_digits (l : List Char) (hne : l ≠ [])
    (hd : ∀ c ∈ l, c.isDigit = true) :
    parseInt10 ⟨'-' :: l⟩ = some (-((digitsToNat l : Nat) : Int)) := by
  have hdata : (String.mk ('-' :: l)).data = '-' :: l := rfl
  unfold parseInt10
  rw [hdata, List.dropWhile_cons, if_neg (by decide)]
  simp only [parseIntFrom]
  rw [if_pos trivial]
  unfold parseDigits
  rw [takeWhile_eq_self _ _ hd]
  cases l with
  | nil => exact absurd rfl hne
  | cons a l => simp

/-- Does the list start with a decimal digit? -/
def headIsDigit : List Char → Bool
  | [] => false
  | c :: _ => c.isDigit

/-- Whether `parseInt` can read any integer from the string: after skipping
leading whitespace and at most one sign there is at least one decimal digit.
When this is `false`, `parseInt` yields `NaN`. -/
def hasIntPrefix (cs : List Char) : Bool :=
  match cs.dropWhile Char.isWhitespace with
  | [] => false
  | c :: rest =>
    if c = '-' || c = '+' then headIsDigit rest
    else c.isDigit

lemma parseDigits_nil : parseDigits [] = none := rfl

lemma parseDigits_cons_of_not_digit {d : Char} (l : List Char)
    (hd : d.isDigit = false) : parseDigits (d :: l) = none := by
  simp [parseDigits, List.takeWhile_cons, hd]

/-- A string with no readable integer prefix parses to `NaN`. -/
lemma parseInt10_none_of_no_prefix (s : String)
    (h : hasIntPrefix s.data = false) : parseInt10 s = none := by
  unfold parseInt10
  unfold hasIntPrefix at h
  cases hdw : s.data.dropWhile Char.isWhitespace with
  | nil => simp [parseIntFrom]
  | cons c rest =>
    rw [hdw] at h
    have h4 : (if (decide (c = '-') || decide (c = '+')) = true then
        headIsDigit rest else c.isDigit) = false := h
    clear h
    simp only [parseIntFrom]
    by_cases hc : c = '-'
    · subst hc
      rw [if_pos rfl]
      have h5 : headIsDigit rest = false := h4
      cases rest with
      | nil => simp [parseDigits_nil]
      | cons d l =>
        rw [parseDigits_cons_of_not_digit l h5]
        rfl
    · by_cases hc2 : c = '+'
      · subst hc2
        rw [if_neg (show ¬('+' = '-') from by decide), if_pos rfl]
        have h5 : headIsDigit rest = false := h4
        cases rest with
        | nil => simp [parseDigits_nil]
        | cons d l =>
          rw [parseDigits_cons_of_not_digit l h5]
          rfl
      · rw [if_neg hc, if_neg hc2]
        have h5 : c.isDigit = false := by simpa [hc, hc2] using h4
        rw [parseDigits_cons_of_not_digit rest h5]
        rfl

/-! ## Trace lemmas: where `URL.revokeObjectURL` can be reached -/

/-- The only event that can add `u` to the revoked list is a completed decode
for `u` itself: every other event leaves `u` unrevoked. -/
lemma step_preserves_unrevoked {u : Nat} {s : AppState} (e : Ev)
    (h1 : u ∉ s.revoked) (h2 : ∀ i, e ≠ Ev.loadEv u i) :
    u ∉ (step s e).revoked := by
  cases e with
  | mountEv canv => exact h1
  | unmountEv =>
    simp only [step, unmount]
    split <;> exact h1
  | msgEv m => cases m <;> exact h1
  | loadEv v i =>
    have hvu : u ≠ v := fun hv => h2 i (by rw [hv])
    simp only [step, handleLoad]
    split
    · exact h1
    · split
      · intro hmem
        rcases List.mem_append.mp hmem with h3 | h3
        · exact h1 h3
        · exact hvu (List.mem_singleton.mp h3)
      · exact h1
  | sockOpenEv => exact h1
  | sockCloseEv => exact h1
  | sockErrorEv => exact h1

/-- Along any event sequence containing no decode completion for `u`,
the URL `u` is never revoked. -/
lemma run_preserves_unrevoked (u : Nat) :
    ∀ (evs : List Ev) (s : AppState), u ∉ s.revoked →
      (∀ e ∈ evs, ∀ i, e ≠ Ev.loadEv u i) → u ∉ (run s evs).revoked
  | [], _, h1, _ => h1
  | e :: evs, s, h1, h2 =>
    run_preserves_unrevoked u evs (step s e)
      (step_preserves_unrevoked e h1 (h2 e (by simp)))
      (fun e2 he2 i => h2 e2 (by simp [he2]) i)

/-! ## Concrete states used by witnesses -/

/-- A mounted canvas with the default 300×150 dimensions and a working
2D context. -/
def canvW : CanvasEl :=
  { width := 300, height := 150, ctx2d := true, content := none }

/-- A freshly mounted component whose canvas is attached. -/
def stateW : AppState := mount initState canvW

/-! ## Claim theorems -/

/-- C1: every mount constructs exactly one connection, and the unmount
cleanup issues exactly one `close()` if and only if the connection's
`readyState` is 1 (open); no other connection state triggers a close. -/
theorem connection_open_close_per_lifecycle (s : AppState) (canv : CanvasEl) :
    (mount s canv).opens = s.opens + 1 ∧
    ((unmount s).closes = if s.wsState = .opened then s.closes + 1 else s.closes) ∧
    ((unmount s).closes = s.closes + 1 ↔ s.wsState = .opened) := by
  refine ⟨rfl, ?_, ?_⟩ <;>
    (unfold unmount readyStateCode; cases s.wsState <;> simp)

/-- C2 counterexample: the `App.tsx` version of the handler has no
`typeof` branch, so the textual payload `"3"` is routed to the binary
decode path — the face count is not replaced with 3 and an object URL is
allocated for the text, contradicting the claim that textual payloads are
parsed into the face count and that no message is routed to the wrong
branch. -/
theorem text_routed_to_binary_in_apptsx :
    (handleMessageOld initState (Msg.text "3")).faceCount = some 0 ∧
    (handleMessageOld initState (Msg.text "3")).faceCount ≠ some 3 ∧
    (handleMessageOld initState (Msg.text "3")).allocated = [0] :=
  ⟨rfl, by decide, rfl⟩

/-- C2 (amended): in the `part_000` version every inbound message takes
exactly one branch — a textual payload only replaces the face count with its
`parseInt` value and allocates no decode handle, a binary payload only
starts a decode (allocating one object URL) and leaves the count alone.
In the `App.tsx` version there is no branch: every message, textual or
binary, takes the binary decode path and the count is never touched. -/
theorem message_dispatch_single_branch (s : AppState) (str : String)
    (bs : List Nat) :
    ((handleMessage s (Msg.text str)).faceCount = parseInt10 str ∧
      (handleMessage s (Msg.text str)).allocated = s.allocated) ∧
    ((handleMessage s (Msg.binary bs)).faceCount = s.faceCount ∧
      (handleMessage s (Msg.binary bs)).allocated = s.allocated ++ [s.nextUrl]) ∧
    (∀ m : Msg, (handleMessageOld s m).faceCount = s.faceCount ∧
      (handleMessageOld s m).allocated = s.allocated ++ [s.nextUrl]) :=
  ⟨⟨rfl, rfl⟩, ⟨rfl, rfl⟩, fun _ => ⟨rfl, rfl⟩⟩

/-- C3: a textual message carrying the canonical base-10 string of any
integer makes the displayed face count equal to that integer. -/
theorem valid_int_text_sets_count (s : AppState) (i : Int) :
    (handleMessage s (Msg.text (intToDecStr i))).faceCount = some i := by
  show parseInt10 (intToDecStr i) = some i
  unfold intToDecStr
  by_cases hi : i < 0
  · rw [if_pos hi,
      parseInt10_dash_digits _ (natToDigits_ne_nil _) (natToDigits_isDigit _),
      digitsToNat_natToDigits]
    congr 1
    omega
  · rw [if_neg hi,
      parseInt10_all_digits _ (natToDigits_ne_nil _) (natToDigits_isDigit _),
      digitsToNat_natToDigits]
    congr 1
    omega

/-- C4 counterexample: `"12abc"` is not a valid numeric string, yet the
stored count after handling it is 12, not `NaN` — `parseInt` reads the
longest numeric prefix, so not every non-numeric string produces a
non-numeric count. -/
theorem numeric_prefix_text_not_nan :
    (handleMessage initState (Msg.text "12abc")).faceCount = some 12 ∧
    some (12 : Int) ≠ (none : Option Int) :=
  ⟨by decide, by decide⟩

/-- C4 (amended): the `parseInt` result is stored without any guard, so a
textual message from which no integer can be read (no decimal digit after
optional whitespace and sign, e.g. `"abc"`) makes the displayed count the
non-numeric value `NaN`; no error is raised and no fallback is substituted.
A non-numeric string with a numeric prefix (e.g. `"12abc"`) instead stores
that prefix's value. -/
theorem no_digit_text_yields_nan (s : AppState) (str : String)
    (h : hasIntPrefix str.data = false) :
    (handleMessage s (Msg.text str)).faceCount = none := by
  show parseInt10 str = none
  exact parseInt10_none_of_no_prefix str h

/-- Witness for C4: the spec's own scenario, text `"abc"`. -/
theorem no_digit_text_yields_nan_witness :
    hasIntPrefix ("abc" : String).data = false ∧
    (handleMessage initState (Msg.text "abc")).faceCount = none :=
  ⟨by decide, no_digit_text_yields_nan initState "abc" (by decide)⟩

/-- C5: when a decode completes while the canvas is mounted and a 2D context
is obtainable, the canvas content becomes exactly the decoded image drawn at
origin (0,0) scaled to the canvas's current width and height. -/
theorem frame_painted_scaled (s : AppState) (u : Nat) (img : List Nat)
    (c : CanvasEl) (hc : s.canvas = some c) (hctx : c.ctx2d = true) :
    (handleLoad s u img).canvas =
      some { c with content := some ⟨img, 0, 0, c.width, c.height⟩ } := by
  simp [handleLoad, hc, hctx]

/-- Witness for C5: a concrete frame painted on the default 300×150 canvas. -/
theorem frame_painted_scaled_witness :
    (handleLoad stateW 0 [1, 2, 3]).canvas =
      some { canvW with content := some ⟨[1, 2, 3], 0, 0, 300, 150⟩ } :=
  frame_painted_scaled stateW 0 [1, 2, 3] canvW rfl rfl

/-- C6: when a decode completes while the canvas is unmounted, or while no
2D context is obtainable, the whole component state is left exactly as it
was — nothing is painted, nothing is revoked, no other field changes. -/
theorem dropped_frame_no_state_change (s : AppState) (u : Nat)
    (img : List Nat)
    (h : s.canvas = none ∨ ∃ c, s.canvas = some c ∧ c.ctx2d = false) :
    handleLoad s u img = s := by
  rcases h with h | ⟨c, hc, hctx⟩
  · simp [handleLoad, h]
  · simp [handleLoad, hc, hctx]

/-- Witness for C6: a decode completing before any mount is a no-op. -/
theorem dropped_frame_no_state_change_witness :
    (initState.canvas = none ∨
      ∃ c, initState.canvas = some c ∧ c.ctx2d = false) ∧
    handleLoad initState 0 [1] = initState :=
  ⟨Or.inl rfl, dropped_frame_no_state_change initState 0 [1] (Or.inl rfl)⟩

/-- C7: when a frame is successfully painted, the object URL captured by its
`onload` callback is revoked exactly once, in the same callback, immediately
after the `drawImage` call. -/
theorem painted_frame_releases_url_once (s : AppState) (u : Nat)
    (img : List Nat) (c : CanvasEl) (hc : s.canvas = some c)
    (hctx : c.ctx2d = true) :
    (handleLoad s u img).revoked = s.revoked ++ [u] ∧
    List.count u (handleLoad s u img).revoked = List.count u s.revoked + 1 := by
  have hrev : (handleLoad s u img).revoked = s.revoked ++ [u] := by
    simp [handleLoad, hc, hctx]
  exact ⟨hrev, by rw [hrev]; simp⟩

/-- Witness for C7: painting URL 5 on the mounted canvas revokes exactly
URL 5, once. -/
theorem painted_frame_releases_url_once_witness :
    (handleLoad stateW 5 [9]).revoked = stateW.revoked ++ [5] ∧
    List.count 5 (handleLoad stateW 5 [9]).revoked =
      List.count 5 stateW.revoked + 1 :=
  painted_frame_releases_url_once stateW 5 [9] canvW rfl rfl

/-- C8 counterexample: the face count is not always a non-negative integer —
the reachable trace mount, socket open, text `"-3"` leaves the stored count
at the negative value −3. -/
theorem negative_face_count_reachable :
    (run initState
        [Ev.mountEv canvW, Ev.sockOpenEv, Ev.msgEv (Msg.text "-3")]).faceCount =
      some (-3) ∧ (-3 : Int) < 0 :=
  ⟨by decide, by decide⟩

/-- C8 (amended): the stored face count is a single value (an integer or
`NaN`), replaced wholesale by each textual message — the new value depends
only on the message, never on the previous state, so no history is retained.
It is moreover a non-negative integer whenever the message is an unsigned
digit string, but signed or unparsable texts can leave it negative or
`NaN`. -/
theorem face_count_wholesale_nonneg (s t : AppState) (str : String)
    (hne : str.data ≠ []) (hd : ∀ c ∈ str.data, c.isDigit = true) :
    (handleMessage s (Msg.text str)).faceCount =
      (handleMessage t (Msg.text str)).faceCount ∧
    ∃ n : Nat, (handleMessage s (Msg.text str)).faceCount = some (n : Int) := by
  constructor
  · rfl
  · refine ⟨digitsToNat str.data, ?_⟩
    show parseInt10 str = some ((digitsToNat str.data : Nat) : Int)
    cases str with
    | mk l => exact parseInt10_all_digits l hne hd

/-- Witness for C8: the spec's own scenario, text `"3"`, from two different
prior states. -/
theorem face_count_wholesale_nonneg_witness :
    ("3" : String).data ≠ [] ∧ (∀ c ∈ ("3" : String).data, c.isDigit = true) ∧
    ((handleMessage initState (Msg.text "3")).faceCount =
        (handleMessage stateW (Msg.text "3")).faceCount ∧
      ∃ n : Nat,
        (handleMessage initState (Msg.text "3")).faceCount = some (n : Int)) :=
  ⟨by decide, by decide,
    face_count_wholesale_nonneg initState stateW "3" (by decide) (by decide)⟩

/-- C9: on binary messages the two versions of the component are the same
program — the `onmessage` handlers produce identical states, and the
`onload` decode-and-paint callbacks (blob, object URL, scaled paint at
(0,0), revoke) are identical functions. -/
theorem versions_equal_on_binary (s : AppState) (bs : List Nat) (u : Nat)
    (img : List Nat) :
    handleMessage s (Msg.binary bs) = handleMessageOld s (Msg.binary bs) ∧
    handleLoad s u img = handleLoadOld s u img :=
  ⟨rfl, rfl⟩

/-- C10: when a decode for URL `u` completes while the canvas is unmounted
or no 2D context is obtainable, the URL is not revoked, and since `onload`
fires only once, no later event — including further messages, paints and
lifecycle changes while the component stays mounted — ever revokes it: the
revoke call is reachable only in the successful-paint branch. -/
theorem dropped_frame_url_never_revoked (s : AppState) (evs : List Ev)
    (u : Nat) (img : List Nat)
    (hdrop : s.canvas = none ∨ ∃ c, s.canvas = some c ∧ c.ctx2d = false)
    (h1 : u ∉ s.revoked)
    (h2 : ∀ e ∈ evs, ∀ i, e ≠ Ev.loadEv u i) :
    u ∉ (run (step s (Ev.loadEv u img)) evs).revoked := by
  have hstep : step s (Ev.loadEv u img) = s := by
    rcases hdrop with h | ⟨c, hc, hctx⟩
    · simp [step, handleLoad, h]
    · simp [step, handleLoad, hc, hctx]
  rw [hstep]
  exact run_preserves_unrevoked u evs s h1 h2

/-- Witness for C10: URL 0's decode completes before any mount; the
component then mounts and receives another binary frame, and URL 0 stays
unrevoked. -/
theorem dropped_frame_url_never_revoked_witness :
    (initState.canvas = none ∨
      ∃ c, initState.canvas = some c ∧ c.ctx2d = false) ∧
    0 ∉ initState.revoked ∧
    0 ∉ (run (step initState (Ev.loadEv 0 [7]))
          [Ev.mountEv canvW, Ev.msgEv (Msg.binary [7])]).revoked :=
  ⟨Or.inl rfl, by decide,
    dropped_frame_url_never_revoked initState
      [Ev.mountEv canvW, Ev.msgEv (Msg.binary [7])] 0 [7]
      (Or.inl rfl) (by decide)
      (by
        intro e he i
        rcases List.mem_cons.mp he with h | h
        · subst h; simp
        · rcases List.mem_cons.mp h with h3 | h3
          · subst h3; simp
          · simp at h3)⟩

end LiveVision
